import Mathlib

/-!
Verification development for the meshtastic-bridge-collector repository.

The definitions below are a shallow embedding of the Python sources:
  - src/collector/meshtastic-collector.py (class MeshtasticCollector, the
    HARDWARE_MODELS table and get_hardware_model_name), and
  - src/db_connection.py (class RobustDBConnection).

Conventions of the embedding:
  - Python strings are Lean String; Python truthiness of a string is
    "nonempty", of an integer "nonzero", of None "false".
  - The PostgreSQL tables are modelled as association lists keyed by the
    node_id string; SQL UPDATE touches every row matching its WHERE clause
    and reports the row count, INSERT appends, and the ON CONFLICT upsert
    of process_nodeinfo_payload updates the matching rows else appends.
  - Wall-clock values (created_at / updated_at timestamps, the pending-set
    first-seen times) are not represented: no claim mentions them, and the
    pending dict is kept as the list of its keys.
  - The protobuf wire decode performed by mesh_pb2.User.ParseFromString is
    external library code; a bytes payload carries the outcome that call
    would produce (none encodes a raised DecodeError).
-/

namespace MeshCollector

/-- listIsPrefix p s is true when p is a prefix of s (Python str.startswith
on the list of characters). -/
def listIsPrefix : List Char → List Char → Bool
  | [], _ => true
  | _ :: _, [] => false
  | a :: as, b :: bs => a == b && listIsPrefix as bs

/-- pyStartsWith s p models Python s.startswith(p). -/
def pyStartsWith (s p : String) : Bool :=
  listIsPrefix p.data s.data

/-- subOccurs pat cs is true when pat occurs as a contiguous sublist of cs
(Python membership test pat in s). -/
def subOccurs (pat : List Char) : List Char → Bool
  | [] => listIsPrefix pat []
  | c :: rest => listIsPrefix pat (c :: rest) || subOccurs pat rest

/-- pyContains s pat models Python membership pat in s. -/
def pyContains (s pat : String) : Bool :=
  subOccurs pat.data s.data

/-- takeRightStr n s models the Python slice s[-n:] (code points). -/
def takeRightStr (n : Nat) (s : String) : String :=
  String.mk (s.data.drop (s.data.length - n))

/-- pyTruthy o is the Python truthiness of an optional string (None and the
empty string are falsy). -/
def pyTruthy : Option String → Bool
  | none => false
  | some s => s ≠ ""

/-- pyOrStr a b models the Python expression a or b on optional strings. -/
def pyOrStr (a b : Option String) : Option String :=
  if pyTruthy a then a else b

/-- Hardware model values may arrive as integers or as strings
(get_hardware_model_name accepts both). -/
inductive HwVal where
  | num (n : Nat)
  | str (s : String)
deriving Repr, DecidableEq

/-- hwTruthy v is the Python truthiness of a hardware value. -/
def hwTruthy : HwVal → Bool
  | .num n => n ≠ 0
  | .str s => s ≠ ""

/-- pyOrHw a b models the Python expression a or b where a is an optional
hardware value and b a hardware value. -/
def pyOrHw (a : Option HwVal) (b : HwVal) : HwVal :=
  match a with
  | some v => if hwTruthy v then v else b
  | none => b

/-- HARDWARE_MODELS is the static table from the bottom of
meshtastic-collector.py, transcribed unchanged. -/
def HARDWARE_MODELS : List (Nat × String) :=
  [(0, "UNSET"), (1, "TLORA_V2"), (2, "TLORA_V1"), (3, "TLORA_V2_1_1P6"),
   (4, "TBEAM"), (5, "HELTEC_UNSUPPORTED"), (6, "TBEAM_V0P7"), (7, "T_ECHO"),
   (8, "TLORA_V1_1P3"), (9, "RAK4631"), (10, "HELTEC_V2_0"), (11, "HELTEC_V2_1"),
   (12, "HELTEC_V1"), (13, "LILYGO_TBEAM_S3_CORE"), (14, "RAK11200"), (15, "NANO_G1"),
   (16, "TLORA_V2_1_1P8"), (17, "TLORA_T3_S3"), (18, "NANO_G1_EXPLORER"), (19, "NANO_G2_ULTRA"),
   (20, "LORA_RELAY_V1"), (21, "STATION_G1"), (22, "RAK11310"), (23, "SENSELORA_RP2040"),
   (24, "SENSELORA_S3"), (25, "CANARYONE"), (26, "RP2040_LORA"), (27, "STATION_G2"),
   (28, "LORA_RELAY_V2"), (29, "ENCODER"), (30, "5GHOUL"), (31, "HELTEC_V3"),
   (32, "HELTEC_WSL_V3"), (33, "BETAFPV_2400_TX"), (34, "BETAFPV_900_NANO_TX"), (35, "RPI_PICO"),
   (36, "HELTEC_WIRELESS_TRACKER"), (37, "HELTEC_WIRELESS_PAPER"), (38, "T_DECK"), (39, "T_WATCH_S3"),
   (40, "PICOMPUTER_S3"), (41, "HELTEC_HT62"), (42, "EBYTE_ESP32_S3"), (43, "ESP32_S3_PICO"),
   (44, "CHATTER_2"), (45, "HELTEC_WIRELESS_PAPER_V1_0"), (46, "HELTEC_WIRELESS_TRACKER_V1_0"), (47, "UNPHONE"),
   (48, "TD_LORAC"), (49, "CDEBYTE_EORA_S3"), (50, "TWC_MESH_V4"), (51, "NRF52_UNKNOWN"),
   (52, "PORTDUINO"), (53, "ANDROID_SIM"), (54, "DIY_V1"), (55, "NRF52840_PCA10059"),
   (56, "DR_DEV"), (57, "M5STACK"), (58, "M5STACK_CORE2"), (59, "M5STACK_M5STICKC"),
   (60, "M5STACK_M5STICKC_PLUS"), (61, "M5STACK_M5STICKC_PLUS2"), (62, "M5STACK_M5ATOM"), (63, "M5STACK_M5NANO"),
   (64, "M5STACK_STAMP_S3"), (65, "M5STACK_CORE_INK"), (66, "M5STACK_PAPER"), (67, "M5STACK_CORES3"),
   (68, "M5STACK_CORE_BASIC"), (69, "M5STACK_CORE_FIRE"), (70, "M5STACK_CARDPUTER"), (71, "SEEDSTUDIO_XIAO_S3"),
   (72, "RADIOMASTER_900_BANDIT_NANO"), (73, "HELTEC_CAPSULE_SENSOR_V3"), (74, "HELTEC_VISION_MASTER_T190"), (75, "HELTEC_VISION_MASTER_E213"),
   (76, "HELTEC_VISION_MASTER_E290"), (77, "HELTEC_MESH_NODE_T114"), (78, "SENSECAP_INDICATOR"), (79, "TRACKER_T1000_E"),
   (80, "RAK3172"), (81, "RAK11310_WISBLOCK"), (82, "PRIVATE_HW"), (83, "RAK4631_WISBLOCK"), (255, "RESERVED")]

/-- hwTableLookup n is the Python dict lookup HARDWARE_MODELS.get(n). -/
def hwTableLookup (n : Nat) : Option String :=
  (HARDWARE_MODELS.find? (fun kv => kv.1 == n)).map (·.2)

/-- parseNatDigits s parses a nonempty all-digit string as a natural number
(the defined fragment of Python int(s); other inputs raise ValueError,
modelled as none). -/
def parseNatDigits (s : String) : Option Nat :=
  if s.data ≠ [] ∧ s.data.all (·.isDigit) then
    some (s.data.foldl (fun acc c => acc * 10 + (c.toNat - 48)) 0)
  else none

/-- get_hardware_model_name converts a hardware enum value to a readable
name: strings are first converted with int() (returned unchanged if that
fails), then the table is consulted with an UNKNOWN_HW placeholder default. -/
def get_hardware_model_name (v : HwVal) : String :=
  match v with
  | .str s =>
    match parseNatDigits s with
    | some n =>
      match hwTableLookup n with
      | some name => name
      | none => "UNKNOWN_HW_" ++ toString n
    | none => s
  | .num n =>
    match hwTableLookup n with
    | some name => name
    | none => "UNKNOWN_HW_" ++ toString n

/-- ProtoUser is the result of a successful mesh_pb2.User decode: protobuf
string fields default to the empty string, the enum field to 0. -/
structure ProtoUser where
  long_name : String
  short_name : String
  hw_model : Nat
deriving Repr, DecidableEq

/-- NPayload is the tagged union of payload shapes distinguished by
process_nodeinfo_payload via runtime introspection:
  - structured: an object exposing both the long_name and the short_name
    attribute (hw is its optional hw_model attribute);
  - dict: a Python dict, with the four name keys and the two hardware keys
    each optionally present;
  - bytes: a bytes object, whose raw contents are carried together with the
    outcome that mesh_pb2.User.ParseFromString would give on it (none
    encodes a raised parse exception);
  - pystr: an actual Python str (its str() is itself);
  - pyobj: any other object, carried as its str() debug rendering. -/
inductive NPayload where
  | structured (long short : String) (hw : Option HwVal)
  | dict (long_name longName short_name shortName : Option String)
         (hw_model hwModel : Option HwVal)
  | bytes (raw : List Nat) (parsed : Option ProtoUser)
  | pystr (s : String)
  | pyobj (s : String)
deriving Repr, DecidableEq

/-- matchPatAt pat cs returns the remainder of cs after an initial
occurrence of pat, when pat is a prefix of cs. -/
def matchPatAt : List Char → List Char → Option (List Char)
  | [], cs => some cs
  | _ :: _, [] => none
  | a :: as, b :: bs => if a == b then matchPatAt as bs else none

/-- isPyWs c recognises the characters matched by the regex class \s. -/
def isPyWs (c : Char) : Bool :=
  c == ' ' || c == '\t' || c == '\n' || c == '\r' || c == '\x0b' || c == '\x0c'

/-- takeQuoted cs matches the regex tail of the nodeinfo name patterns: an
opening double quote, one or more non-quote characters, and a closing
double quote, returning the capture. -/
def takeQuoted (cs : List Char) : Option String :=
  match cs with
  | '\"' :: rest =>
    let body := rest.takeWhile (fun c => c ≠ '\"')
    if body ≠ [] ∧ rest.drop body.length ≠ [] then some (String.mk body) else none
  | _ => none

/-- reSearchName pat cs models re.search for the pattern
pat then optional whitespace then a quoted nonempty capture: the scan tries
every start position left to right and yields the first full match. -/
def reSearchName (pat : List Char) : List Char → Option String
  | [] => none
  | c :: rest =>
    match (matchPatAt pat (c :: rest)).bind
        (fun tl => takeQuoted (tl.dropWhile isPyWs)) with
    | some capture => some capture
    | none => reSearchName pat rest

/-- regexExtract s is Method 4 of process_nodeinfo_payload: the substring
prechecks and the two re.search calls over the payload string. -/
def regexExtract (s : String) : Option (String × String) :=
  if pyContains s "long_name:" ∧ pyContains s "short_name:" then
    match reSearchName "long_name:".data s.data,
          reSearchName "short_name:".data s.data with
    | some l, some sh => some (l, sh)
    | _, _ => none
  else none

/-- structHwLabel hw is the hardware label Method 1 produces: the hw_model
attribute is looked up when present, otherwise the initial UNKNOWN stands. -/
def structHwLabel : Option HwVal → String
  | some v => get_hardware_model_name v
  | none => "UNKNOWN"

/-- extractNamesHw p is the strategy dispatch of process_nodeinfo_payload
lines 129-178: exactly one branch runs, chosen by the payload shape, and
yields the (still unvalidated) optional long name, optional short name and
hardware label; none encodes the branches that return False before the
validation block (a bytes parse exception, or a string payload without the
textual name pattern). -/
def extractNamesHw : NPayload → Option (Option String × Option String × String)
  | .structured l s hw => some (some l, some s, structHwLabel hw)
  | .dict ln lN sn sN hm hM =>
    some (pyOrStr ln lN, pyOrStr sn sN,
      get_hardware_model_name (pyOrHw hm (hM.getD (HwVal.num 0))))
  | .bytes _ parsed =>
    match parsed with
    | none => none
    | some u =>
      some (some u.long_name, some u.short_name,
        if u.hw_model ≠ 0 then get_hardware_model_name (.num u.hw_model)
        else "UNKNOWN")
  | .pystr s =>
    (regexExtract s).map (fun n => (some n.1, some n.2, "UNKNOWN"))
  | .pyobj s =>
    (regexExtract s).map (fun n => (some n.1, some n.2, "UNKNOWN"))

/-- validateNames lo so is the validation block of lines 180-188: both
names must be truthy, and names shaped like the synthesized placeholders
(long starting with Node-, short starting with N) are rejected. -/
def validateNames (lo so : Option String) : Option (String × String) :=
  if pyTruthy lo ∧ pyTruthy so then
    match lo, so with
    | some l, some s =>
      if pyStartsWith l "Node-" || pyStartsWith s "N" then none else some (l, s)
    | _, _ => none
  else none

/-- decodeNodeinfo p is the full decode of process_nodeinfo_payload: the
shape dispatch followed by the validation block; some (long, short, hw)
exactly when the Python function reaches its database upsert. -/
def decodeNodeinfo (p : NPayload) : Option (String × String × String) :=
  (extractNamesHw p).bind
    (fun t => (validateNames t.1 t.2.1).map (fun n => (n.1, n.2, t.2.2)))

/-- NodeRow is one row of the node_details table; created_at and updated_at
are wall-clock noise and are not represented. -/
structure NodeRow where
  long_name : String
  short_name : String
  hardware_model : String
  role : String
  mqtt_status : String
  longitude : Option Int
  latitude : Option Int
  altitude : Option Int
  precision_val : Option Int
deriving Repr, DecidableEq

/-- NodeDb is the node_details relation keyed by the node_id string. -/
abbrev NodeDb := List (String × NodeRow)

/-- dbLookup db key is the first row stored under key (SELECT by primary
key; the insertion paths keep keys unique). -/
def dbLookup (db : NodeDb) (key : String) : Option NodeRow :=
  match db with
  | [] => none
  | kv :: rest => if kv.1 = key then some kv.2 else dbLookup rest key

/-- nodeinfoRow l s hw is the row the INSERT of process_nodeinfo_payload
writes: default CLIENT role, unknown mqtt status, empty position. -/
def nodeinfoRow (l s hw : String) : NodeRow :=
  { long_name := l, short_name := s, hardware_model := hw, role := "CLIENT",
    mqtt_status := "unknown", longitude := none, latitude := none,
    altitude := none, precision_val := none }

/-- updateRowsAt key c f db is a SQL UPDATE: every row stored under key
whose current contents satisfy the WHERE condition c is replaced by its
f-image. -/
def updateRowsAt (key : String) (c : NodeRow → Bool) (f : NodeRow → NodeRow)
    (db : NodeDb) : NodeDb :=
  db.map (fun kv => if kv.1 = key ∧ c kv.2 then (kv.1, f kv.2) else kv)

/-- setNodeinfoFields l s hw is the DO UPDATE SET clause of
process_nodeinfo_payload: short_name, long_name and hardware_model are
replaced, the other columns keep their stored values. -/
def setNodeinfoFields (l s hw : String) (r : NodeRow) : NodeRow :=
  { r with short_name := s, long_name := l, hardware_model := hw }

/-- upsertNodeinfoDb key l s hw db is the INSERT ... ON CONFLICT (node_id)
DO UPDATE of process_nodeinfo_payload: rows stored under key get their
short_name, long_name and hardware_model replaced unconditionally;
otherwise the fresh row is inserted. -/
def upsertNodeinfoDb (key l s hw : String) (db : NodeDb) : NodeDb :=
  if db.any (fun kv => kv.1 == key) then
    updateRowsAt key (fun _ => true) (setNodeinfoFields l s hw) db
  else db ++ [(key, nodeinfoRow l s hw)]

/-- isPlaceholderLong r is the WHERE guard long_name LIKE the Node- pattern
of the conditional UPDATE. -/
def isPlaceholderLong (r : NodeRow) : Bool :=
  pyStartsWith r.long_name "Node-"

/-- setPromotedNames l s is the SET clause of the conditional UPDATE:
long_name and short_name are replaced, everything else kept. -/
def setPromotedNames (l s : String) (r : NodeRow) : NodeRow :=
  { r with long_name := l, short_name := s }

/-- condUpdateDb key l s db is the conditional UPDATE shared by
check_and_update_node and bulk_check_nodes: SET long_name, short_name WHERE
node_id = key AND long_name LIKE the Node- placeholder pattern; the second
component is cursor.rowcount. -/
def condUpdateDb (key l s : String) (db : NodeDb) : NodeDb × Nat :=
  (updateRowsAt key isPlaceholderLong (setPromotedNames l s) db,
   (db.filter (fun kv => kv.1 = key && isPlaceholderLong kv.2)).length)

/-- PortVal is the dynamic type of the decoded portnum field: the library
delivers either an integer or a string tag, and process_packet stores it
as-is after classification. -/
inductive PortVal where
  | num (n : Nat)
  | strv (s : String)
deriving Repr, DecidableEq

/-- DecodedData is the packet field decoded, with the keys process_packet
and process_nodeinfo_payload read from it. -/
structure DecodedData where
  portnum : Option PortVal
  payload : Option NPayload
deriving Repr, DecidableEq

/-- emptyDecoded is the default dict of packet.get with no decoded key. -/
def emptyDecoded : DecodedData :=
  { portnum := none, payload := none }

/-- MetricRow is one row of mesh_packet_metrics. The time column is
datetime.fromtimestamp of rx_time and is kept as that same epoch number;
rx_snr is a float in the source and is carried as an integer-valued
pass-through (no claim computes with it). -/
structure MetricRow where
  time : Nat
  source_id : String
  destination_id : Option String
  portnum : PortVal
  packet_id : Nat
  channel : Nat
  rx_time : Nat
  rx_snr : Int
  rx_rssi : Int
  hop_limit : Nat
  hop_start : Nat
  want_ack : Bool
  via_mqtt : Bool
  message_size_bytes : Nat
deriving Repr, DecidableEq

/-- Packet is the inbound event dict with the keys the collector reads;
absent keys are none. -/
structure Packet where
  from_id : Option Nat
  to_id : Option Nat
  decoded : Option DecodedData
  rxTime : Option Nat
  rxSnr : Option Int
  rxRssi : Option Int
  hopLimit : Option Nat
  hopStart : Option Nat
  wantAck : Option Bool
  viaMqtt : Option Bool
  id : Option Nat
  channel : Option Nat
deriving Repr, DecidableEq

/-- CState is the collector state the claims touch: the node_details
relation, the append-only mesh_packet_metrics relation, the pending_nodes
key set, and the stats counters written by the modelled methods. -/
structure CState where
  db : NodeDb
  metrics : List MetricRow
  pending : List Nat
  packets_stored : Nat
  packets_errors : Nat
  nodes_created : Nat
  nodes_updated : Nat
  nodeinfo_direct_updates : Nat
deriving Repr, DecidableEq

/-- NodeKey is a key of the interface roster cache self.interface.nodes:
either a hex string of the !-prefixed form or a plain integer. -/
inductive NodeKey where
  | str (s : String)
  | num (n : Nat)
deriving Repr, DecidableEq

/-- IfaceUser is the nested user sub-record of a roster entry; every field
is optional (node_info.get of user defaults to the empty dict). -/
structure IfaceUser where
  longName : Option String
  shortName : Option String
  hwModel : Option HwVal
  role : Option String
deriving Repr, DecidableEq

/-- IfacePos is the nested position sub-record of a roster entry. -/
structure IfacePos where
  longitude : Option Int
  latitude : Option Int
  altitude : Option Int
deriving Repr, DecidableEq

/-- IfaceNode is one roster entry of self.interface.nodes. -/
structure IfaceNode where
  user : IfaceUser
  position : IfacePos
deriving Repr, DecidableEq

/-- emptyIfaceNode is the roster entry whose sub-dicts are both empty. -/
def emptyIfaceNode : IfaceNode :=
  { user := { longName := none, shortName := none, hwModel := none, role := none },
    position := { longitude := none, latitude := none, altitude := none } }

/-- Iface is the roster cache, read-only to the collector. -/
abbrev Iface := List (NodeKey × IfaceNode)

/-- ifaceLookup iface k is the dict lookup self.interface.nodes. -/
def ifaceLookup (iface : Iface) (k : NodeKey) : Option IfaceNode :=
  (iface.find? (fun kv => kv.1 == k)).map (·.2)

/-- pendingInsert n l models the dict write self.pending_nodes with key n
(only the key set is represented). -/
def pendingInsert (n : Nat) (l : List Nat) : List Nat :=
  if n ∈ l then l else l ++ [n]

/-- payloadFalsy p is the Python truthiness test if not payload on the
payload object: empty bytes and the empty string are falsy. An empty dict
is falsy too, but the dict constructor does not record the presence of
further keys; a key-less dict yields no names either way, so the observable
behaviour (return False, state unchanged) coincides. -/
def payloadFalsy : NPayload → Bool
  | .bytes raw _ => raw.isEmpty
  | .pystr s => s = ""
  | _ => false

/-- process_nodeinfo_payload (lines 111-230) decodes the NODEINFO payload
and, on success, runs the unconditional ON CONFLICT upsert, bumps the
nodes_updated and nodeinfo_direct_updates counters and removes the node
from the pending set; the Bool is the Python return value. -/
def process_nodeinfo_payload (st : CState) (node_id : Nat)
    (payload : Option NPayload) : CState × Bool :=
  match payload with
  | none => (st, false)
  | some p =>
    if payloadFalsy p then (st, false)
    else
      match decodeNodeinfo p with
      | none => (st, false)
      | some (l, s, hw) =>
        ({ st with
            db := upsertNodeinfoDb (toString node_id) l s hw st.db,
            nodes_updated := st.nodes_updated + 1,
            nodeinfo_direct_updates := st.nodeinfo_direct_updates + 1,
            pending := st.pending.filter (fun m => m ≠ node_id) }, true)

/-- ensure_node_exists (lines 298-367): a falsy node id is ignored; an
existing row is left untouched; otherwise the roster is consulted and a row
is inserted, falling back to the synthesized placeholder names, with the
pending set and the stats counters updated as in the source. -/
def ensure_node_exists (st : CState) (iface : Iface) (node_id : Nat) : CState :=
  if node_id = 0 then st
  else
    let key := toString node_id
    match dbLookup st.db key with
    | some _ => st
    | none =>
      let info := (ifaceLookup iface (.num node_id)).getD emptyIfaceNode
      let user := info.user
      let pos := info.position
      let longIsReal := pyTruthy user.longName ∧
        ¬ pyStartsWith (user.longName.getD "") "Node-"
      let long := if longIsReal then user.longName.getD "" else "Node-" ++ key
      let short :=
        if pyTruthy user.shortName ∧ ¬ pyStartsWith (user.shortName.getD "") "N"
        then user.shortName.getD "" else "N" ++ takeRightStr 4 key
      let row : NodeRow :=
        { long_name := long, short_name := short,
          hardware_model := get_hardware_model_name (user.hwModel.getD (.num 0)),
          role := user.role.getD "CLIENT", mqtt_status := "unknown",
          longitude := pos.longitude, latitude := pos.latitude,
          altitude := pos.altitude, precision_val := none }
      let st1 := { st with
        db := st.db ++ [(key, row)],
        pending := if longIsReal then st.pending else pendingInsert node_id st.pending }
      if pyStartsWith long "Node-" then
        { st1 with nodes_created := st1.nodes_created + 1 }
      else
        { st1 with nodes_updated := st1.nodes_updated + 1 }

/-- applyRosterUpdate is the promotion body duplicated between
check_and_update_node (lines 251-296) and the loop of bulk_check_nodes
(lines 394-417): when the roster holds a real long name, run the
conditional UPDATE, and on a positive row count bump nodes_updated and drop
the node from the pending set. -/
def applyRosterUpdate (st : CState) (node_id : Nat) (user : IfaceUser) : CState :=
  if pyTruthy user.longName ∧ ¬ pyStartsWith (user.longName.getD "") "Node-" then
    let l := user.longName.getD ""
    let s := (pyOrStr user.shortName
      (some ("N" ++ takeRightStr 4 (toString node_id)))).getD ""
    let r := condUpdateDb (toString node_id) l s st.db
    if r.2 > 0 then
      { st with
        db := r.1, nodes_updated := st.nodes_updated + 1,
        pending := st.pending.filter (fun m => m ≠ node_id) }
    else { st with db := r.1 }
  else st

/-- check_and_update_node is the legacy fallback: look the node up in the
roster and apply the shared promotion body. -/
def check_and_update_node (st : CState) (iface : Iface) (node_id : Nat) : CState :=
  match ifaceLookup iface (.num node_id) with
  | none => st
  | some info => applyRosterUpdate st node_id info.user

/-- parseHexNat s is Python int(s, 16) on the defined fragment of plain
hexadecimal digit strings (other inputs raise ValueError, modelled none). -/
def parseHexNat (s : String) : Option Nat :=
  if s.data ≠ [] ∧ s.data.all (fun c => c.isDigit ∨ ('a' ≤ c ∧ c ≤ 'f') ∨ ('A' ≤ c ∧ c ≤ 'F')) then
    some (s.data.foldl (fun acc c =>
      acc * 16 + (if c.isDigit then c.toNat - 48
        else if 'a' ≤ c then c.toNat - 87 else c.toNat - 55)) 0)
  else none

/-- parseNodeIdKey is the key conversion at the top of the bulk_check_nodes
loop (lines 384-392): a !-prefixed string is hex-converted to an unsigned
integer, a plain integer passes through, anything else is skipped (none;
a failed hex parse raises and the entry is likewise skipped). -/
def parseNodeIdKey : NodeKey → Option Nat
  | .str s => if pyStartsWith s "!" then parseHexNat (s.drop 1) else none
  | .num n => some n

/-- bulk_check_nodes iterates the first 20 roster entries (the loop breaks
once checked_count exceeds 20) and applies the shared promotion body to
every entry whose key parses. -/
def bulk_check_nodes (st : CState) (iface : Iface) : CState :=
  (iface.take 20).foldl
    (fun acc kv =>
      match parseNodeIdKey kv.1 with
      | none => acc
      | some nid => applyRosterUpdate acc nid kv.2.user)
    st

/-- classifyPortnum is the portnum normalisation of process_packet lines
457-462: 0 becomes UNKNOWN_APP, integers of 256 and above become
PRIVATE_APP, every other value is stored unchanged. -/
def classifyPortnum (p : PortVal) : PortVal :=
  match p with
  | .num 0 => .strv "UNKNOWN_APP"
  | .num n => if 256 ≤ n then .strv "PRIVATE_APP" else .num n
  | .strv s => .strv s

/-- portnumTag dec classifies decoded.get with default 0. -/
def portnumTag (dec : DecodedData) : PortVal :=
  classifyPortnum (dec.portnum.getD (.num 0))

/-- payloadSizeOf dec is the payload byte length of process_packet lines
447-453: the length of a bytes payload, the UTF-8 byte length of a str
payload, and 0 otherwise. -/
def payloadSizeOf (dec : DecodedData) : Nat :=
  match dec.payload with
  | some (.bytes raw _) => raw.length
  | some (.pystr s) => s.utf8ByteSize
  | _ => 0

/-- buildMetricRow now fid pkt is the parameter tuple of the
mesh_packet_metrics INSERT; now stands for int(time.time()), the default of
the rxTime lookup. A falsy to field (absent or 0) stores NULL. -/
def buildMetricRow (now fid : Nat) (pkt : Packet) : MetricRow :=
  let dec := pkt.decoded.getD emptyDecoded
  let rx_time := pkt.rxTime.getD now
  { time := rx_time,
    source_id := toString fid,
    destination_id :=
      match pkt.to_id with
      | some t => if t ≠ 0 then some (toString t) else none
      | none => none,
    portnum := portnumTag dec,
    packet_id := pkt.id.getD 0,
    channel := pkt.channel.getD 0,
    rx_time := rx_time,
    rx_snr := pkt.rxSnr.getD 0,
    rx_rssi := pkt.rxRssi.getD 0,
    hop_limit := pkt.hopLimit.getD 0,
    hop_start := pkt.hopStart.getD 0,
    want_ack := pkt.wantAck.getD false,
    via_mqtt := pkt.viaMqtt.getD false,
    message_size_bytes := payloadSizeOf dec }

/-- process_packet (lines 425-503): a falsy from field returns at once with
nothing touched; otherwise the source node (and, unless the destination is
falsy or the broadcast sentinel 4294967295, the destination node) is passed
through ensure_node_exists, the metric row is inserted and packets_stored
is bumped. -/
def process_packet (st : CState) (iface : Iface) (now : Nat) (pkt : Packet) : CState :=
  match pkt.from_id with
  | none => st
  | some fid =>
    if fid = 0 then st
    else
      let st1 := ensure_node_exists st iface fid
      let st2 :=
        match pkt.to_id with
        | some t => if t ≠ 0 ∧ t ≠ 4294967295 then ensure_node_exists st1 iface t else st1
        | none => st1
      { st2 with
        metrics := st2.metrics ++ [buildMetricRow now fid pkt],
        packets_stored := st2.packets_stored + 1 }

/-- pyByteChar b renders one byte inside a Python bytes repr: printable
ASCII other than the backslash and the single quote is shown verbatim, tab,
newline and carriage return as their two-character escapes, everything else
as a hexadecimal escape. -/
def pyByteChar (b : Nat) : String :=
  if b = 9 then "\\t"
  else if b = 10 then "\\n"
  else if b = 13 then "\\r"
  else if b = 92 then "\\\\"
  else if b = 39 then "\\\x27"
  else if 32 ≤ b ∧ b ≤ 126 then String.mk [Char.ofNat b]
  else "\\x" ++ String.mk [Nat.digitChar (b / 16 % 16), Nat.digitChar (b % 16)]

/-- pyBytesRepr bs is Python str of a bytes object: the b prefix, a
single-quoted body, and the per-byte rendering. -/
def pyBytesRepr (bs : List Nat) : String :=
  "b\x27" ++ String.join (bs.map pyByteChar) ++ "\x27"

/-- pyReprStrEntry k v renders one key/value pair of a string-valued dict
the way Python repr does when neither string holds a single quote. -/
def pyReprStrEntry (k v : String) : String :=
  "\x27" ++ k ++ "\x27: \x27" ++ v ++ "\x27"

/-- protoTextLine k v is one line of the protobuf text format str() of a
message with string field k holding v (quote-free v). -/
def protoTextLine (k v : String) : String :=
  k ++ ": \"" ++ v ++ "\"\n"

/-- pyStrOf p is the str() debug rendering of a payload, the input of the
textual strategy. The bytes and string cases follow Python exactly; the
structured case is the protobuf text format; the dict case lists the
present keys in declaration order with Python repr conventions. -/
def pyStrOf : NPayload → String
  | .structured l s hw =>
    protoTextLine "long_name" l ++ protoTextLine "short_name" s ++
      (match hw with
       | some (.num n) => "hw_model: " ++ toString n ++ "\n"
       | some (.str s) => protoTextLine "hw_model" s
       | none => "")
  | .dict ln lN sn sN hm hM =>
    let ent (k : String) (v : Option String) : List String :=
      match v with
      | some s => [pyReprStrEntry k s]
      | none => []
    let enth (k : String) (v : Option HwVal) : List String :=
      match v with
      | some (.num n) => ["\x27" ++ k ++ "\x27: " ++ toString n]
      | some (.str s) => [pyReprStrEntry k s]
      | none => []
    "\x7b" ++ String.intercalate ", "
      (ent "long_name" ln ++ ent "longName" lN ++ ent "short_name" sn ++
       ent "shortName" sN ++ enth "hw_model" hm ++ enth "hwModel" hM) ++ "\x7d"
  | .bytes raw _ => pyBytesRepr raw
  | .pystr s => s
  | .pyobj s => s

/-- Modelled from the spec: specDecodeChain is the decode procedure as the
specification words it (section 4.1 and claim C6) — an ordered fallback
chain over the four strategies, where a strategy succeeds when it extracts
both a nonempty long and short name, the first success is returned, and the
post-decode placeholder validation is then applied. The source instead
dispatches on the payload shape; this definition exists to be compared with
decodeNodeinfo. -/
def specDecodeChain (p : NPayload) : Option (String × String) :=
  let s1 : Option (String × String) :=
    match p with
    | .structured l s _ => if l ≠ "" ∧ s ≠ "" then some (l, s) else none
    | _ => none
  let s2 : Option (String × String) :=
    match p with
    | .dict ln lN sn sN _ _ =>
      match pyOrStr ln lN, pyOrStr sn sN with
      | some l, some s => if l ≠ "" ∧ s ≠ "" then some (l, s) else none
      | _, _ => none
    | _ => none
  let s3 : Option (String × String) :=
    match p with
    | .bytes _ (some u) =>
      if u.long_name ≠ "" ∧ u.short_name ≠ "" then
        some (u.long_name, u.short_name)
      else none
    | _ => none
  let s4 : Option (String × String) := regexExtract (pyStrOf p)
  (s1 <|> s2 <|> s3 <|> s4).bind
    (fun n => validateNames (some n.1) (some n.2))

end MeshCollector

namespace RobustDB

/-!
Shallow embedding of src/db_connection.py (class RobustDBConnection).
The psycopg2 pool and its connections are external; a run is driven by an
environment giving, for every outer attempt of execute_with_retry, whether
each inner get_connection probe (getconn followed by the SELECT 1 test)
succeeds, and the outcome of cur.execute once a connection is held. The
pool is represented by its generation number: recreate_pool increments it.
time.sleep is recorded in the trace instead of elapsing.
-/

/-- DBErr distinguishes the caught psycopg2 error classes. -/
inductive DBErr where
  | opError
  | ifaceError
  | otherError
deriving Repr, DecidableEq

/-- ExecOutcome is the behaviour of cur.execute on one outer attempt:
success, a connection-class failure (OperationalError or InterfaceError),
or any other exception. -/
inductive ExecOutcome where
  | ok
  | connErr (e : DBErr)
  | otherErr
deriving Repr, DecidableEq

/-- RetryEnv drives one call of execute_with_retry: probe k i tells whether
the i-th getconn-and-test inside the k-th outer attempt succeeds, and
execRes k is the outcome of the query execution of the k-th outer attempt. -/
structure RetryEnv where
  probe : Nat → Nat → Bool
  execRes : Nat → ExecOutcome

/-- RunOutcome is how execute_with_retry finishes: a returned value, a
raised error, or the implicit None of an exhausted range (max_retries 0). -/
inductive RunOutcome where
  | success
  | raised (e : DBErr)
  | noneReturned
deriving Repr, DecidableEq

/-- RunTrace records one run: the outcome, how many query executions were
attempted, the backoff sleeps performed by execute_with_retry itself, and
the final pool generation. -/
structure RunTrace where
  outcome : RunOutcome
  attempts : Nat
  execSleeps : List Nat
  poolGen : Nat
deriving Repr, DecidableEq

/-- getConnGo is the loop of get_connection from a list of remaining
attempt indices: a successful probe returns the connection, a failed probe
before the last index sleeps, recreates the pool and retries, and a failed
probe at the last index re-raises (false). -/
def getConnGo (probe : Nat → Bool) (lastIdx : Nat) :
    List Nat → Nat → Nat × Bool
  | [], pool => (pool, false)
  | a :: rest, pool =>
    if probe a then (pool, true)
    else if a < lastIdx then getConnGo probe lastIdx rest (pool + 1)
    else (pool, false)

/-- get_connection (lines 38-55) with retry logic; the Bool is whether a
tested connection was obtained, false meaning the final attempt re-raised
its OperationalError or InterfaceError. -/
def get_connection (probe : Nat → Bool) (maxRetries pool : Nat) : Nat × Bool :=
  getConnGo probe (maxRetries - 1) (List.range maxRetries) pool

/-- execGo is the loop of execute_with_retry over the remaining outer
attempt indices, accumulating the attempt count, pool generation and
backoff sleeps. A connection-class failure (from get_connection or from the
execution) before the last index sleeps 2 ^ attempt and retries; at the
last index it re-raises. Any other exception is re-raised at once. -/
def execGo (env : RetryEnv) (maxRetries : Nat) :
    List Nat → Nat → Nat → List Nat → RunTrace
  | [], attempts, pool, sleeps =>
    { outcome := .noneReturned, attempts := attempts,
      execSleeps := sleeps, poolGen := pool }
  | k :: rest, attempts, pool, sleeps =>
    let conn := get_connection (env.probe k) maxRetries pool
    if conn.2 then
      match env.execRes k with
      | .ok =>
        { outcome := .success, attempts := attempts + 1,
          execSleeps := sleeps, poolGen := conn.1 }
      | .connErr e =>
        if k < maxRetries - 1 then
          execGo env maxRetries rest (attempts + 1) conn.1 (sleeps ++ [2 ^ k])
        else
          { outcome := .raised e, attempts := attempts + 1,
            execSleeps := sleeps, poolGen := conn.1 }
      | .otherErr =>
        { outcome := .raised .otherError, attempts := attempts + 1,
          execSleeps := sleeps, poolGen := conn.1 }
    else
      if k < maxRetries - 1 then
        execGo env maxRetries rest attempts conn.1 (sleeps ++ [2 ^ k])
      else
        { outcome := .raised .opError, attempts := attempts,
          execSleeps := sleeps, poolGen := conn.1 }

/-- execute_with_retry (lines 66-98) starting from pool generation 0. -/
def execute_with_retry (env : RetryEnv) (maxRetries : Nat) : RunTrace :=
  execGo env maxRetries (List.range maxRetries) 0 0 []

end RobustDB

namespace MeshCollector

/-! Concrete fixtures used by the witnesses and counterexamples. -/

/-- stEmpty is the collector state right after startup. -/
def stEmpty : CState :=
  { db := [], metrics := [], pending := [], packets_stored := 0,
    packets_errors := 0, nodes_created := 0, nodes_updated := 0,
    nodeinfo_direct_updates := 0 }

/-- aliceRow is a resolved directory row: neither name is shaped like a
synthesized placeholder. -/
def aliceRow : NodeRow :=
  { long_name := "Alice", short_name := "AL", hardware_model := "TBEAM",
    role := "CLIENT", mqtt_status := "unknown", longitude := none,
    latitude := none, altitude := none, precision_val := none }

/-- stAlice stores the resolved row under node id 42. -/
def stAlice : CState :=
  { stEmpty with db := [("42", aliceRow)] }

/-- sydneyPayload is the identity payload of the spec scenario. -/
def sydneyPayload : NPayload :=
  .structured "Sydney-BNS1" "BNS1" (some (.num 9))

/-- cexBytesRaw is a bytes payload that is not a valid mesh_pb2.User
message (its first byte 0x6C has wire type 4, a stray ENDGROUP, so
ParseFromString raises) while its Python str() rendering contains the
textual name pattern the regex strategy extracts. -/
def cexBytesRaw : List Nat :=
  "long_name: \"Alice\" short_name: \"AL\"".data.map Char.toNat

/-! Helper lemmas about the association-list relations. -/

/-- dbLookup distributes over a SQL UPDATE: the looked-up row is the stored
one, transformed when it is under the updated key and meets the WHERE
condition. -/
theorem dbLookup_updateRowsAt (key : String) (c : NodeRow → Bool)
    (f : NodeRow → NodeRow) (db : NodeDb) (k : String) :
    dbLookup (updateRowsAt key c f db) k =
      (dbLookup db k).map (fun r => if k = key ∧ c r then f r else r) := by
  induction db with
  | nil => rfl
  | cons kv rest ih =>
    by_cases hk : kv.1 = k
    · by_cases hcond : kv.1 = key ∧ c kv.2
      · have hkk : k = key ∧ c kv.2 := ⟨hk.symm.trans hcond.1, hcond.2⟩
        simp [updateRowsAt, dbLookup, hk, hcond, hkk]
      · have hkk : ¬ (k = key ∧ c kv.2) := fun h => hcond ⟨hk.trans h.1, h.2⟩
        simp [updateRowsAt, dbLookup, hk, hcond, hkk]
    · by_cases hcond : kv.1 = key ∧ c kv.2
      · have hkey : ¬ key = k := fun h => hk (hcond.1.trans h)
        simpa [updateRowsAt, dbLookup, hk, hcond, hkey] using ih
      · simpa [updateRowsAt, dbLookup, hk, hcond] using ih

/-- A SQL UPDATE keeps the key multiset, hence the existence test. -/
theorem any_key_updateRowsAt (key : String) (c : NodeRow → Bool)
    (f : NodeRow → NodeRow) (db : NodeDb) (k : String) :
    (updateRowsAt key c f db).any (fun kv => kv.1 == k) =
      db.any (fun kv => kv.1 == k) := by
  induction db with
  | nil => rfl
  | cons kv rest ih =>
    by_cases hcond : kv.1 = key ∧ c kv.2 <;>
      simp [updateRowsAt, hcond, List.any_cons] at ih ⊢ <;> rw [ih]

/-- A SQL UPDATE over a relation not holding the key is the identity. -/
theorem updateRowsAt_of_not_any (key : String) (c : NodeRow → Bool)
    (f : NodeRow → NodeRow) (db : NodeDb)
    (h : db.any (fun kv => kv.1 == key) = false) :
    updateRowsAt key c f db = db := by
  induction db with
  | nil => rfl
  | cons kv rest ih =>
    rw [List.any_cons, Bool.or_eq_false_iff] at h
    have hne : ¬ (kv.1 = key ∧ c kv.2) := fun hc => by
      rw [hc.1] at h
      simp at h
    simp only [updateRowsAt, List.map_cons, if_neg hne] at ih ⊢
    rw [ih h.2]

/-- Appending fresh rows does not change an existing lookup. -/
theorem dbLookup_append_of_some (db l2 : NodeDb) (k : String) (r : NodeRow)
    (h : dbLookup db k = some r) : dbLookup (db ++ l2) k = some r := by
  induction db with
  | nil => exact absurd h (by simp [dbLookup])
  | cons kv rest ih =>
    by_cases hk : kv.1 = k
    · simpa [dbLookup, hk] using h
    · simp [dbLookup, hk] at h ⊢
      exact ih h

/-- The UPDATE of a SQL UPDATE distributes over list append. -/
theorem updateRowsAt_append (key : String) (c : NodeRow → Bool)
    (f : NodeRow → NodeRow) (db l2 : NodeDb) :
    updateRowsAt key c f (db ++ l2) =
      updateRowsAt key c f db ++ updateRowsAt key c f l2 := by
  simp [updateRowsAt]

/-- Running the conditional name promotion after the unconditional
nodeinfo upsert, or the other way round, rewrites the rows identically
when the candidate long name is not placeholder-shaped. -/
theorem updateRowsAt_promote_comm (key l s hw : String) (db : NodeDb)
    (hl : pyStartsWith l "Node-" = false) :
    updateRowsAt key isPlaceholderLong (setPromotedNames l s)
        (updateRowsAt key (fun _ => true) (setNodeinfoFields l s hw) db) =
      updateRowsAt key (fun _ => true) (setNodeinfoFields l s hw)
        (updateRowsAt key isPlaceholderLong (setPromotedNames l s) db) := by
  induction db with
  | nil => rfl
  | cons kv rest ih =>
    simp only [updateRowsAt, List.map_cons] at ih ⊢
    congr 1
    by_cases hk : kv.1 = key
    · by_cases hph : pyStartsWith kv.2.long_name "Node-" = true <;>
        simp [hk, hph, isPlaceholderLong, setNodeinfoFields, setPromotedNames, hl]
    · simp [hk]

/-- The unconditional nodeinfo field rewrite is idempotent. -/
theorem updateRowsAt_set3_idem (key l s hw : String) (db : NodeDb) :
    updateRowsAt key (fun _ => true) (setNodeinfoFields l s hw)
        (updateRowsAt key (fun _ => true) (setNodeinfoFields l s hw) db) =
      updateRowsAt key (fun _ => true) (setNodeinfoFields l s hw) db := by
  induction db with
  | nil => rfl
  | cons kv rest ih =>
    simp only [updateRowsAt, List.map_cons] at ih ⊢
    congr 1
    by_cases hk : kv.1 = key <;> simp [hk, setNodeinfoFields]

/-- The conditional name promotion is idempotent when the candidate long
name is not placeholder-shaped. -/
theorem updateRowsAt_promote_idem (key l s : String) (db : NodeDb)
    (hl : pyStartsWith l "Node-" = false) :
    updateRowsAt key isPlaceholderLong (setPromotedNames l s)
        (updateRowsAt key isPlaceholderLong (setPromotedNames l s) db) =
      updateRowsAt key isPlaceholderLong (setPromotedNames l s) db := by
  induction db with
  | nil => rfl
  | cons kv rest ih =>
    simp only [updateRowsAt, List.map_cons] at ih ⊢
    congr 1
    by_cases hk : kv.1 = key
    · by_cases hph : pyStartsWith kv.2.long_name "Node-" = true <;>
        simp [hk, hph, isPlaceholderLong, setPromotedNames, hl]
    · simp [hk]

/-- ensure_node_exists never touches the metrics relation. -/
theorem ensure_node_exists_metrics (st : CState) (iface : Iface) (nid : Nat) :
    (ensure_node_exists st iface nid).metrics = st.metrics := by
  unfold ensure_node_exists
  dsimp only
  split
  · rfl
  split
  · rfl
  rw [apply_ite CState.metrics]
  simp

/-- ensure_node_exists never removes or rewrites an existing row. -/
theorem ensure_node_exists_db_lookup (st : CState) (iface : Iface) (nid : Nat)
    (k : String) (r : NodeRow) (h : dbLookup st.db k = some r) :
    dbLookup (ensure_node_exists st iface nid).db k = some r := by
  unfold ensure_node_exists
  dsimp only
  split
  · exact h
  split
  · exact h
  rw [apply_ite CState.db]
  dsimp only
  rw [ite_self]
  exact dbLookup_append_of_some _ _ _ _ h

/-- validateNames rejects placeholder-shaped candidates. -/
theorem validateNames_none_of_placeholder (lo so : Option String)
    (h : (∃ l, lo = some l ∧ pyStartsWith l "Node-" = true) ∨
         (∃ s, so = some s ∧ pyStartsWith s "N" = true)) :
    validateNames lo so = none := by
  unfold validateNames
  by_cases ht : pyTruthy lo = true ∧ pyTruthy so = true
  · cases lo with
    | none => simp [pyTruthy] at ht
    | some l2 =>
      cases so with
      | none => simp [pyTruthy] at ht
      | some s2 =>
        have hb : (pyStartsWith l2 "Node-" || pyStartsWith s2 "N") = true := by
          rcases h with ⟨l3, hel, hsl⟩ | ⟨s3, hes, hss⟩
          · cases hel
            simp [hsl]
          · cases hes
            simp [hss]
        simp [ht, hb]
  · simp [ht]

/-- A decode whose extracted names are placeholder-shaped yields
no-result. -/
theorem decodeNodeinfo_placeholder_none (p : NPayload) (lo so : Option String)
    (hw : String) (hx : extractNamesHw p = some (lo, so, hw))
    (h : (∃ l, lo = some l ∧ pyStartsWith l "Node-" = true) ∨
         (∃ s, so = some s ∧ pyStartsWith s "N" = true)) :
    decodeNodeinfo p = none := by
  unfold decodeNodeinfo
  rw [hx]
  simp [validateNames_none_of_placeholder lo so h]

/-- A failed decode leaves process_nodeinfo_payload without effect. -/
theorem process_nodeinfo_noop_of_decode_none (st : CState) (nid : Nat)
    (p : NPayload) (hd : decodeNodeinfo p = none) :
    process_nodeinfo_payload st nid (some p) = (st, false) := by
  unfold process_nodeinfo_payload
  by_cases hf : payloadFalsy p = true
  · simp [hf]
  · simp [hf, hd]

/-- With a truthy from field, process_packet appends exactly the metric row
of buildMetricRow. -/
theorem process_packet_metrics (st : CState) (iface : Iface) (now : Nat)
    (pkt : Packet) (fid : Nat) (hf : pkt.from_id = some fid) (h0 : fid ≠ 0) :
    (process_packet st iface now pkt).metrics =
      st.metrics ++ [buildMetricRow now fid pkt] := by
  unfold process_packet
  rw [hf]
  simp only [h0, if_false]
  have h1 := ensure_node_exists_metrics st iface fid
  cases hto : pkt.to_id with
  | none => simp [h1]
  | some t =>
    by_cases hcond : t ≠ 0 ∧ t ≠ 4294967295 <;>
      simp [hcond, ensure_node_exists_metrics, h1]

end MeshCollector

namespace RobustDB

/-- envOneDrop simulates one connection drop on the first execution, with
every probe succeeding. -/
def envOneDrop : RetryEnv :=
  { probe := fun _ _ => true,
    execRes := fun k => if k = 0 then .connErr .opError else .ok }

/-- envAllFail simulates a persistent connection-class failure. -/
def envAllFail : RetryEnv :=
  { probe := fun _ _ => true, execRes := fun _ => .connErr .ifaceError }

/-- With a succeeding first probe, get_connection returns at once without
touching the pool. -/
theorem get_connection_first_probe (probe : Nat → Bool) (m pool : Nat)
    (hm : 1 ≤ m) (hp : probe 0 = true) :
    get_connection probe m pool = (pool, true) := by
  obtain ⟨n, rfl⟩ : ∃ n, m = n + 1 := ⟨m - 1, by omega⟩
  rw [get_connection, List.range_succ_eq_map]
  simp [getConnGo, hp]

/-- execute_with_retry makes at most one query execution per outer loop
iteration. -/
theorem execGo_attempts_le (env : RetryEnv) (maxR : Nat) :
    ∀ (ks : List Nat) (a p : Nat) (s : List Nat),
      (execGo env maxR ks a p s).attempts ≤ a + ks.length := by
  intro ks
  induction ks with
  | nil =>
    intro a p s
    simp [execGo]
  | cons k rest ih =>
    intro a p s
    simp only [execGo]
    split <;> (try split) <;> (try split) <;>
      first
        | exact le_trans (ih _ _ _) (by simp only [List.length_cons]; omega)
        | (simp only [List.length_cons]; omega)

/-- When every probe succeeds immediately, the pool generation stays
untouched over the whole run. -/
theorem execGo_pool_stable (env : RetryEnv) (maxR : Nat) (hm : 1 ≤ maxR)
    (hp : ∀ k, env.probe k 0 = true) :
    ∀ (ks : List Nat) (a p : Nat) (s : List Nat),
      (execGo env maxR ks a p s).poolGen = p := by
  intro ks
  induction ks with
  | nil =>
    intro a p s
    rfl
  | cons k rest ih =>
    intro a p s
    simp only [execGo, get_connection_first_probe (env.probe k) maxR p hm (hp k)]
    cases hres : env.execRes k with
    | ok => simp [hres]
    | connErr e2 =>
      by_cases hk : k < maxR - 1
      · simpa [hres, hk] using ih _ _ _
      · simp [hres, hk]
    | otherErr => simp [hres]

/-- When probes succeed and every execution fails with the same
connection-class error, the loop spends one execution per remaining index,
sleeps the doubling backoff after each failure but the last, and finishes
by raising the error, never recreating the pool. -/
theorem execGo_all_connfail (env : RetryEnv) (maxR : Nat) (e : DBErr)
    (hp : ∀ k, env.probe k 0 = true) (he : ∀ k, env.execRes k = .connErr e) :
    ∀ (n i a p : Nat) (s : List Nat), i + n = maxR → 0 < n →
      execGo env maxR (List.range' i n) a p s =
        { outcome := .raised e, attempts := a + n,
          execSleeps := s ++ (List.range' i (n - 1)).map (2 ^ ·), poolGen := p } := by
  intro n
  induction n with
  | zero =>
    intro i a p s _ hn
    exact absurd hn (by omega)
  | succ m ih =>
    intro i a p s hin _
    have hm : 1 ≤ maxR := by omega
    rw [show List.range' i (m + 1) = i :: List.range' (i + 1) m from
      List.range'_succ i m 1]
    simp only [execGo, get_connection_first_probe (env.probe i) maxR p hm (hp i),
      he i]
    by_cases hil : i < maxR - 1
    · have hm1 : 0 < m := by omega
      simp only [hil, if_true, reduceIte]
      rw [ih (i + 1) (a + 1) p (s ++ [2 ^ i]) (by omega) hm1]
      obtain ⟨m2, rfl⟩ : ∃ m2, m = m2 + 1 := ⟨m - 1, by omega⟩
      simp only [RunTrace.mk.injEq]
      refine ⟨trivial, by omega, ?_, trivial⟩
      rw [show List.range' i (m2 + 1 + 1 - 1) = i :: List.range' (i + 1) m2 from
        List.range'_succ i m2 1]
      simp [List.append_assoc]
    · have hm0 : m = 0 := by omega
      subst hm0
      simp only [hil, if_false, reduceIte]
      simp

end RobustDB

namespace MeshCollector

/-- The conditional promotion leaves a row alone when the stored long name
is already resolved (not placeholder-shaped). -/
theorem condUpdateDb_resolved_noop (key l s : String) (db : NodeDb)
    (k : String) (r : NodeRow) (h : dbLookup db k = some r)
    (hres : pyStartsWith r.long_name "Node-" = false) :
    dbLookup (condUpdateDb key l s db).1 k = some r := by
  simp only [condUpdateDb]
  rw [dbLookup_updateRowsAt, h]
  simp [isPlaceholderLong, hres]

/-- The direct upsert and the conditional promotion commute for a resolved
candidate. -/
theorem upsert_condUpdate_comm (key l s hw : String) (db : NodeDb)
    (hl : pyStartsWith l "Node-" = false) :
    (condUpdateDb key l s (upsertNodeinfoDb key l s hw db)).1 =
      upsertNodeinfoDb key l s hw (condUpdateDb key l s db).1 := by
  by_cases hany : db.any (fun kv => kv.1 == key) = true
  · simp only [upsertNodeinfoDb, condUpdateDb, hany, if_true,
      any_key_updateRowsAt, reduceIte]
    exact updateRowsAt_promote_comm key l s hw db hl
  · have hfalse : db.any (fun kv => kv.1 == key) = false :=
      Bool.eq_false_iff.mpr hany
    simp only [upsertNodeinfoDb, condUpdateDb, hfalse,
      any_key_updateRowsAt, Bool.false_eq_true, if_false, reduceIte]
    rw [updateRowsAt_append, updateRowsAt_of_not_any _ _ _ db hfalse]
    simp [updateRowsAt, isPlaceholderLong, nodeinfoRow, hl]

/-- The direct upsert is idempotent. -/
theorem upsertNodeinfoDb_idem (key l s hw : String) (db : NodeDb) :
    upsertNodeinfoDb key l s hw (upsertNodeinfoDb key l s hw db) =
      upsertNodeinfoDb key l s hw db := by
  by_cases hany : db.any (fun kv => kv.1 == key) = true
  · simp only [upsertNodeinfoDb, hany, if_true, any_key_updateRowsAt, reduceIte]
    exact updateRowsAt_set3_idem key l s hw db
  · have hfalse : db.any (fun kv => kv.1 == key) = false :=
      Bool.eq_false_iff.mpr hany
    simp only [upsertNodeinfoDb, hfalse, Bool.false_eq_true, if_false, reduceIte]
    rw [if_pos (by simp [List.any_append])]
    rw [updateRowsAt_append, updateRowsAt_of_not_any _ _ _ db hfalse]
    simp [updateRowsAt, setNodeinfoFields, nodeinfoRow]

/-- The conditional promotion is idempotent for a resolved candidate. -/
theorem condUpdateDb_idem (key l s : String) (db : NodeDb)
    (hl : pyStartsWith l "Node-" = false) :
    (condUpdateDb key l s (condUpdateDb key l s db).1).1 =
      (condUpdateDb key l s db).1 := by
  simp only [condUpdateDb]
  exact updateRowsAt_promote_idem key l s db hl

end MeshCollector

namespace MeshCollector

/-- stPending9 has node 12345678 waiting in the pending set. -/
def stPending9 : CState :=
  { stEmpty with pending := [12345678] }

/-- stResolved9 is the state after the direct nodeinfo update of the
scenario payload. -/
def stResolved9 : CState :=
  { stEmpty with
    db := [("12345678", nodeinfoRow "Sydney-BNS1" "BNS1" "RAK4631")],
    nodes_updated := 1, nodeinfo_direct_updates := 1 }

/-- stPromoted42 is stAlice after the direct nodeinfo upsert overwrote the
resolved row. -/
def stPromoted42 : CState :=
  { stEmpty with
    db := [("42", nodeinfoRow "Sydney-BNS1" "BNS1" "RAK4631")],
    nodes_updated := 1, nodeinfo_direct_updates := 1 }

/-- pktNoFrom is an event that carries no from field at all. -/
def pktNoFrom : Packet :=
  { from_id := none, to_id := none, decoded := none, rxTime := none,
    rxSnr := none, rxRssi := none, hopLimit := none, hopStart := none,
    wantAck := none, viaMqtt := none, id := none, channel := none }

/-- pktOversized carries a 2000-byte binary payload, above the 1024-byte
packet_size_limit declared in config.example.py. -/
def oversizedDecoded : DecodedData :=
  { portnum := some (.num 300),
    payload := some (.bytes (List.replicate 2000 0) none) }

def pktOversized : Packet :=
  { pktNoFrom with
    from_id := some 1
    rxTime := some 100
    id := some 7
    decoded := some oversizedDecoded }

/-- pktBroadcast is addressed to the numeric broadcast sentinel. -/
def pktBroadcast : Packet :=
  { pktNoFrom with
    from_id := some 99
    to_id := some 4294967295
    rxTime := some 10 }

/-- ifaceBob is a roster whose entry 42 announces a resolved identity. -/
def ifaceBob : Iface :=
  [(.num 42,
    { user := { longName := some "Bob Tower", shortName := some "BOB",
                hwModel := none, role := none },
      position := { longitude := none, latitude := none, altitude := none } })]

/-- The shared promotion body never removes or regresses a resolved row. -/
theorem applyRosterUpdate_db_lookup (st : CState) (nid : Nat)
    (user : IfaceUser) (k : String) (r : NodeRow)
    (h : dbLookup st.db k = some r)
    (hres : pyStartsWith r.long_name "Node-" = false) :
    dbLookup (applyRosterUpdate st nid user).db k = some r := by
  unfold applyRosterUpdate
  split
  · dsimp only
    split
    · exact condUpdateDb_resolved_noop _ _ _ _ _ _ h hres
    · exact condUpdateDb_resolved_noop _ _ _ _ _ _ h hres
  · exact h

/-- The bulk-check fold preserves every resolved row. -/
theorem bulkFoldRoster_db_lookup (entries : List (NodeKey × IfaceNode)) :
    ∀ (st : CState) (k : String) (r : NodeRow),
      dbLookup st.db k = some r → pyStartsWith r.long_name "Node-" = false →
      dbLookup
        ((entries.foldl
          (fun acc kv =>
            match parseNodeIdKey kv.1 with
            | none => acc
            | some nid => applyRosterUpdate acc nid kv.2.user) st).db) k =
        some r := by
  induction entries with
  | nil =>
    intro st k r h _
    exact h
  | cons kv rest ih =>
    intro st k r h hres
    simp only [List.foldl_cons]
    cases hpk : parseNodeIdKey kv.1 with
    | none => simpa [hpk] using ih st k r h hres
    | some nid =>
      have h2 := applyRosterUpdate_db_lookup st nid kv.2.user k r h hres
      simpa [hpk] using ih _ k r h2 hres

/-- C1: resolution status is monotonic. A row that already exists is never
rewritten by ensure_node_exists; a nodeinfo upsert whose extracted names
are placeholder-shaped is rejected before any write; and the conditional
promotions of check_and_update_node and bulk_check_nodes never change a
row whose stored long name is already resolved. -/
theorem c1_resolution_monotonic :
    (∀ (st : CState) (iface : Iface) (nid : Nat) (k : String) (r : NodeRow),
        dbLookup st.db k = some r →
        dbLookup (ensure_node_exists st iface nid).db k = some r)
    ∧ (∀ (p : NPayload) (lo so : Option String) (hw : String)
          (st : CState) (nid : Nat),
        extractNamesHw p = some (lo, so, hw) →
        ((∃ l, lo = some l ∧ pyStartsWith l "Node-" = true) ∨
         (∃ s2, so = some s2 ∧ pyStartsWith s2 "N" = true)) →
        process_nodeinfo_payload st nid (some p) = (st, false))
    ∧ (∀ (st : CState) (iface : Iface) (nid : Nat) (k : String) (r : NodeRow),
        dbLookup st.db k = some r →
        pyStartsWith r.long_name "Node-" = false →
        dbLookup (check_and_update_node st iface nid).db k = some r)
    ∧ (∀ (st : CState) (iface : Iface) (k : String) (r : NodeRow),
        dbLookup st.db k = some r →
        pyStartsWith r.long_name "Node-" = false →
        dbLookup (bulk_check_nodes st iface).db k = some r) := by
  refine ⟨ensure_node_exists_db_lookup, ?_, ?_, ?_⟩
  · intro p lo so hw st nid hx hph
    exact process_nodeinfo_noop_of_decode_none st nid p
      (decodeNodeinfo_placeholder_none p lo so hw hx hph)
  · intro st iface nid k r h hres
    unfold check_and_update_node
    cases hfind : ifaceLookup iface (.num nid) with
    | none => exact h
    | some info => exact applyRosterUpdate_db_lookup st nid info.user k r h hres
  · intro st iface k r h hres
    unfold bulk_check_nodes
    exact bulkFoldRoster_db_lookup (iface.take 20) st k r h hres

/-- Witness for C1 at concrete inputs: the resolved Alice row survives a
roster promotion attempt, and a placeholder-named nodeinfo payload is
rejected without touching the state. -/
theorem c1_resolution_monotonic_witness :
    dbLookup (check_and_update_node stAlice ifaceBob 42).db "42" =
      some aliceRow
    ∧ process_nodeinfo_payload stAlice 42
        (some (.structured "Node-99" "XY" none)) = (stAlice, false) := by
  constructor
  · exact c1_resolution_monotonic.2.2.1 stAlice ifaceBob 42 "42" aliceRow
      rfl rfl
  · exact c1_resolution_monotonic.2.1 (.structured "Node-99" "XY" none)
      (some "Node-99") (some "XY") "UNKNOWN" stAlice 42 rfl
      (Or.inl ⟨"Node-99", rfl, rfl⟩)

/-- C2 counterexample: the direct upsert path replaces a stored row even
though its current name is not placeholder-shaped, refuting the claim that
both promotion paths replace the row only if the stored name is still
placeholder-shaped. -/
theorem c2_direct_upsert_replaces_resolved :
    pyStartsWith aliceRow.long_name "Node-" = false
    ∧ process_nodeinfo_payload stAlice 42 (some sydneyPayload) =
        (stPromoted42, true)
    ∧ dbLookup stPromoted42.db "42" ≠ some aliceRow := by
  refine ⟨rfl, by decide, by decide⟩

/-- C2 amended: only the reconcile promotion is conditional on the stored
name being placeholder-shaped; the direct upsert is unconditional; yet for
a fixed resolved candidate the two promotions commute and each is
idempotent, so either order and repeated application converge to the same
record. -/
theorem c2_promotion_commutes_idem (key l s hw : String) (db : NodeDb)
    (hl : pyStartsWith l "Node-" = false) :
    (∀ (k : String) (r : NodeRow), dbLookup db k = some r →
        pyStartsWith r.long_name "Node-" = false →
        dbLookup (condUpdateDb key l s db).1 k = some r)
    ∧ (condUpdateDb key l s (upsertNodeinfoDb key l s hw db)).1 =
        upsertNodeinfoDb key l s hw (condUpdateDb key l s db).1
    ∧ upsertNodeinfoDb key l s hw (upsertNodeinfoDb key l s hw db) =
        upsertNodeinfoDb key l s hw db
    ∧ (condUpdateDb key l s (condUpdateDb key l s db).1).1 =
        (condUpdateDb key l s db).1 :=
  ⟨fun k r h hres => condUpdateDb_resolved_noop key l s db k r h hres,
   upsert_condUpdate_comm key l s hw db hl,
   upsertNodeinfoDb_idem key l s hw db,
   condUpdateDb_idem key l s db hl⟩

/-- Witness for C2 at concrete inputs. -/
theorem c2_promotion_commutes_idem_witness :
    dbLookup (condUpdateDb "42" "Sydney-BNS1" "BNS1" stAlice.db).1 "42" =
      some aliceRow
    ∧ upsertNodeinfoDb "42" "Sydney-BNS1" "BNS1" "RAK4631"
        (upsertNodeinfoDb "42" "Sydney-BNS1" "BNS1" "RAK4631" stAlice.db) =
      upsertNodeinfoDb "42" "Sydney-BNS1" "BNS1" "RAK4631" stAlice.db := by
  have h := c2_promotion_commutes_idem "42" "Sydney-BNS1" "BNS1" "RAK4631"
    stAlice.db rfl
  exact ⟨h.1 "42" aliceRow rfl rfl, h.2.2.1⟩

/-- C3 counterexample: the hex-to-unsigned conversion the code applies to
!-prefixed identifiers maps !2f8a1c00 to 797580288, not to the 796731904
the claim asserts. -/
theorem c3_hex_destination_value :
    parseNodeIdKey (.str "!2f8a1c00") = some 797580288
    ∧ (797580288 : Nat) ≠ 796731904 := by
  refine ⟨by decide, by decide⟩

/-- C3 amended: process_packet recognises the broadcast destination by its
numeric sentinel 4294967295 (skipping the destination upsert and storing
the sentinel string), and the hex-prefixed conversion lives in the roster
key parsing of bulk_check_nodes, where !2f8a1c00 parses to 797580288. -/
theorem c3_destination_classification :
    (∀ (st : CState) (iface : Iface) (now : Nat) (pkt : Packet) (fid : Nat),
        pkt.from_id = some fid → fid ≠ 0 → pkt.to_id = some 4294967295 →
        (process_packet st iface now pkt).db =
          (ensure_node_exists st iface fid).db
        ∧ (buildMetricRow now fid pkt).destination_id = some "4294967295")
    ∧ parseNodeIdKey (.str "!2f8a1c00") = some 797580288 := by
  constructor
  · intro st iface now pkt fid hf h0 hto
    constructor
    · unfold process_packet
      rw [hf]
      dsimp only
      rw [if_neg h0, hto]
      simp
    · unfold buildMetricRow
      dsimp only
      rw [hto]
      decide
  · decide

/-- Witness for C3 amended at a concrete broadcast packet. -/
theorem c3_destination_classification_witness :
    (process_packet stEmpty [] 10 pktBroadcast).db =
      (ensure_node_exists stEmpty [] 99).db
    ∧ (buildMetricRow 10 99 pktBroadcast).destination_id =
        some "4294967295" :=
  c3_destination_classification.1 stEmpty [] 10 pktBroadcast 99 rfl
    (by decide) rfl

/-- C5 (code_bug evidence): process_packet applies no size ceiling — an
event whose payload is 2000 bytes, far above the 1024-byte
packet_size_limit declared in the configuration, still gets its metric row
inserted and counted as stored. -/
theorem c5_oversized_packet_persisted :
    1024 < payloadSizeOf (pktOversized.decoded.getD emptyDecoded)
    ∧ (process_packet stEmpty [] 50 pktOversized).metrics =
        [buildMetricRow 50 1 pktOversized]
    ∧ (buildMetricRow 50 1 pktOversized).message_size_bytes = 2000
    ∧ (process_packet stEmpty [] 50 pktOversized).packets_stored = 1 := by
  refine ⟨?_, ?_, ?_, rfl⟩
  · dsimp only [pktOversized, pktNoFrom, oversizedDecoded, payloadSizeOf,
      Option.getD]
    simp only [List.length_replicate]
    omega
  · have h := process_packet_metrics stEmpty [] 50 pktOversized 1 rfl
      (by decide)
    simpa [stEmpty] using h
  · dsimp only [buildMetricRow, pktOversized, pktNoFrom, oversizedDecoded,
      payloadSizeOf, Option.getD]
    simp only [List.length_replicate]

/-- C6 counterexample: a bytes payload that fails the protobuf decode is
no-result for the source decode, while the spec-worded fallback chain would
go on to the textual strategy over its debug string and extract names. -/
theorem c6_shape_dispatch_counterexample :
    decodeNodeinfo (.bytes cexBytesRaw none) = none
    ∧ specDecodeChain (.bytes cexBytesRaw none) = some ("Alice", "AL") := by
  refine ⟨rfl, by decide⟩

/-- C6 amended: decode dispatches on the payload shape in the fixed order
structured, dict, bytes, text; exactly one branch runs and its failure is
final — a bytes payload that fails the binary decode yields no-result
independently of what its debug string contains, and the textual strategy
applies only to payloads of the remaining shapes. -/
theorem c6_shape_dispatch :
    (∀ raw, decodeNodeinfo (.bytes raw none) = none)
    ∧ (∀ raw raw2 parsed, decodeNodeinfo (.bytes raw parsed) =
        decodeNodeinfo (.bytes raw2 parsed))
    ∧ (∀ (l s : String) (hw : Option HwVal),
        decodeNodeinfo (.structured l s hw) =
          (validateNames (some l) (some s)).map
            (fun n => (n.1, n.2, structHwLabel hw)))
    ∧ (∀ s2 : String, decodeNodeinfo (.pyobj s2) =
        (regexExtract s2).bind
          (fun n => (validateNames (some n.1) (some n.2)).map
            (fun m => (m.1, m.2, "UNKNOWN")))) := by
  refine ⟨fun raw => rfl, fun raw raw2 parsed => rfl, fun l s hw => rfl, ?_⟩
  intro s2
  unfold decodeNodeinfo extractNamesHw
  cases h : regexExtract s2 <;> simp [h]

/-- C7: decode yields no-result when the strategies extract no names, when
either name is missing or empty, and when either extracted name is
placeholder-shaped (long starting with Node-, short starting with N) — in
the placeholder case no identity update is performed. -/
theorem c7_decode_validation :
    (∀ p : NPayload, extractNamesHw p = none → decodeNodeinfo p = none)
    ∧ (∀ (p : NPayload) (lo so : Option String) (hw : String),
        extractNamesHw p = some (lo, so, hw) →
        (pyTruthy lo = false ∨ pyTruthy so = false) →
        decodeNodeinfo p = none)
    ∧ (∀ (p : NPayload) (l s2 hw : String),
        extractNamesHw p = some (some l, some s2, hw) →
        (pyStartsWith l "Node-" = true ∨ pyStartsWith s2 "N" = true) →
        decodeNodeinfo p = none
        ∧ ∀ (st : CState) (nid : Nat),
            process_nodeinfo_payload st nid (some p) = (st, false)) := by
  refine ⟨?_, ?_, ?_⟩
  · intro p hx
    unfold decodeNodeinfo
    rw [hx]
    rfl
  · intro p lo so hw hx hf
    unfold decodeNodeinfo
    rw [hx]
    have hv : validateNames lo so = none := by
      unfold validateNames
      rcases hf with hf | hf <;> simp [hf]
    simp [hv]
  · intro p l s2 hw hx hph
    have hd : decodeNodeinfo p = none := by
      apply decodeNodeinfo_placeholder_none p _ _ hw hx
      rcases hph with h | h
      · exact Or.inl ⟨l, rfl, h⟩
      · exact Or.inr ⟨s2, rfl, h⟩
    exact ⟨hd, fun st nid => process_nodeinfo_noop_of_decode_none st nid p hd⟩

/-- Witness for C7: the legitimate short name NICE, starting with the
reserved prefix letter, is rejected as specified. -/
theorem c7_decode_validation_witness :
    decodeNodeinfo (.structured "Alice Tower" "NICE" none) = none
    ∧ process_nodeinfo_payload stEmpty 7
        (some (.structured "Alice Tower" "NICE" none)) = (stEmpty, false) := by
  have h := c7_decode_validation.2.2 (.structured "Alice Tower" "NICE" none)
    "Alice Tower" "NICE" "UNKNOWN" rfl (Or.inr rfl)
  exact ⟨h.1, h.2 stEmpty 7⟩

/-- C8: portnum classification — 0 or absent becomes UNKNOWN_APP, numeric
values of 256 and above become PRIVATE_APP, string tags pass through
unchanged, and the stored metric row carries exactly that classification. -/
theorem c8_portnum_classification :
    (∀ dec : DecodedData, dec.portnum = none →
        portnumTag dec = .strv "UNKNOWN_APP")
    ∧ (∀ dec : DecodedData, dec.portnum = some (.num 0) →
        portnumTag dec = .strv "UNKNOWN_APP")
    ∧ (∀ (dec : DecodedData) (n : Nat), dec.portnum = some (.num n) →
        256 ≤ n → portnumTag dec = .strv "PRIVATE_APP")
    ∧ (∀ (dec : DecodedData) (s2 : String), dec.portnum = some (.strv s2) →
        portnumTag dec = .strv s2)
    ∧ (∀ (st : CState) (iface : Iface) (now : Nat) (pkt : Packet) (fid : Nat),
        pkt.from_id = some fid → fid ≠ 0 →
        (process_packet st iface now pkt).metrics =
          st.metrics ++ [buildMetricRow now fid pkt]
        ∧ (buildMetricRow now fid pkt).portnum =
            portnumTag (pkt.decoded.getD emptyDecoded)) := by
  refine ⟨?_, ?_, ?_, ?_, ?_⟩
  · intro dec h
    simp [portnumTag, h, classifyPortnum]
  · intro dec h
    simp [portnumTag, h, classifyPortnum]
  · intro dec n h hn
    cases n with
    | zero => omega
    | succ m => simp [portnumTag, h, classifyPortnum, hn]
  · intro dec s2 h
    simp [portnumTag, h, classifyPortnum]
  · intro st iface now pkt fid hf h0
    exact ⟨process_packet_metrics st iface now pkt fid hf h0, rfl⟩

/-- Witness for C8 at the three concrete classification examples. -/
theorem c8_portnum_classification_witness :
    portnumTag { portnum := some (.num 300), payload := none } =
      .strv "PRIVATE_APP"
    ∧ portnumTag { portnum := some (.strv "NODEINFO_APP"), payload := none } =
        .strv "NODEINFO_APP"
    ∧ portnumTag { portnum := none, payload := none } =
        .strv "UNKNOWN_APP" := by
  refine ⟨?_, ?_, ?_⟩
  · exact c8_portnum_classification.2.2.1 _ 300 rfl (by omega)
  · exact c8_portnum_classification.2.2.2.1 _ "NODEINFO_APP" rfl
  · exact c8_portnum_classification.1 _ rfl

/-- C9: hardware-code resolution is total and deterministic — listed codes
map to their labels (9 to RAK4631), unlisted codes map to the UNKNOWN_HW
placeholder, and the scenario identity payload resolves node 12345678 with
hardware RAK4631 and removes it from the pending set. -/
theorem c9_hardware_resolution :
    get_hardware_model_name (.num 9) = "RAK4631"
    ∧ (∀ (n : Nat) (lbl : String), hwTableLookup n = some lbl →
        get_hardware_model_name (.num n) = lbl)
    ∧ (∀ n : Nat, hwTableLookup n = none →
        get_hardware_model_name (.num n) = "UNKNOWN_HW_" ++ toString n)
    ∧ process_nodeinfo_payload stPending9 12345678 (some sydneyPayload) =
        (stResolved9, true) := by
  refine ⟨rfl, ?_, ?_, by decide⟩
  · intro n lbl h
    simp [get_hardware_model_name, h]
  · intro n h
    simp [get_hardware_model_name, h]

/-- Witness for C9 at a listed and an unlisted hardware code. -/
theorem c9_hardware_resolution_witness :
    get_hardware_model_name (.num 0) = "UNSET"
    ∧ get_hardware_model_name (.num 999) = "UNKNOWN_HW_999" := by
  constructor
  · exact c9_hardware_resolution.2.1 0 "UNSET" rfl
  · exact c9_hardware_resolution.2.2.1 999 (by decide)

/-- C10: an event whose from field is absent or 0 is skipped silently —
process_packet returns the state unchanged: no metric row, no node upsert,
no counter movement. -/
theorem c10_falsy_from_skipped (st : CState) (iface : Iface) (now : Nat)
    (pkt : Packet) (h : pkt.from_id = none ∨ pkt.from_id = some 0) :
    process_packet st iface now pkt = st := by
  rcases h with h | h <;> (unfold process_packet; rw [h]; try simp)

/-- Witness for C10 on a concrete from-less packet. -/
theorem c10_falsy_from_skipped_witness :
    process_packet stEmpty [] 0 pktNoFrom = stEmpty
    ∧ (pktNoFrom.from_id = none ∨ pktNoFrom.from_id = some 0) :=
  ⟨c10_falsy_from_skipped stEmpty [] 0 pktNoFrom (Or.inl rfl), Or.inl rfl⟩

end MeshCollector

namespace RobustDB

/-- C4 counterexample: after a connection-class failure on the first
execution the loop sleeps and retries, succeeding on the second attempt,
and the pool generation never moves — the retry did not recreate the
connection pool. -/
theorem c4_retry_without_pool_recreation :
    envOneDrop.execRes 0 = .connErr .opError
    ∧ execute_with_retry envOneDrop 5 =
        { outcome := .success, attempts := 2, execSleeps := [1],
          poolGen := 0 } := by
  refine ⟨rfl, by decide⟩

/-- C4 amended: execute_with_retry makes at most max_retries query
executions; under a persistent connection-class failure it performs exactly
max_retries attempts with the doubling backoff 2 ^ attempt between them and
raises the error after the last; the pool is recreated only inside
get_connection when a fresh connection probe fails, so with succeeding
probes the pool generation never changes. -/
theorem c4_bounded_backoff_retry (env : RetryEnv) (maxRetries : Nat)
    (e : DBErr) (h1 : 1 ≤ maxRetries) :
    (execute_with_retry env maxRetries).attempts ≤ maxRetries
    ∧ ((∀ k, env.probe k 0 = true) → (∀ k, env.execRes k = .connErr e) →
        execute_with_retry env maxRetries =
          { outcome := .raised e, attempts := maxRetries,
            execSleeps := (List.range (maxRetries - 1)).map (2 ^ ·),
            poolGen := 0 })
    ∧ ((∀ k, env.probe k 0 = true) →
        (execute_with_retry env maxRetries).poolGen = 0) := by
  refine ⟨?_, ?_, ?_⟩
  · simpa [execute_with_retry] using
      execGo_attempts_le env maxRetries (List.range maxRetries) 0 0 []
  · intro hp he
    have h := execGo_all_connfail env maxRetries e hp he maxRetries 0 0 0 []
      (by omega) (by omega)
    rw [execute_with_retry, List.range_eq_range', h]
    simp [List.range_eq_range']
  · intro hp
    exact execGo_pool_stable env maxRetries h1 hp (List.range maxRetries) 0 0 []

/-- Witness for C4 amended: three persistent connection failures exhaust
max_retries 3 with backoff sleeps 1 and 2 and raise the error. -/
theorem c4_bounded_backoff_retry_witness :
    execute_with_retry envAllFail 3 =
      { outcome := .raised .ifaceError, attempts := 3,
        execSleeps := [1, 2], poolGen := 0 } := by
  have h := (c4_bounded_backoff_retry envAllFail 3 .ifaceError (by omega)).2.1
    (fun _ => rfl) (fun _ => rfl)
  rw [h]
  decide

end RobustDB
